import Mathlib

/-!
Shallow embedding of `milestone1.py`: the error taxonomy, the text
sanitizer `sanitize_text`, the numeric coercion `to_float`, and the
`WeatherObservation` record with its validated property setters,
constructor and `to_dict`.

Python machine floats are modelled as exact rationals (`ℚ`): every claim
under study concerns order comparisons against small decimal constants and
pass-through of values, on which binary floating point and exact rational
arithmetic agree for the inputs involved.  Dynamically-typed Python values
reaching the setters are modelled by the inductive `PyVal`.
-/

/-- A dynamically-typed Python value as it reaches the model's setters:
`None`, a text string, a number (`int`/`float` collapsed, modelled as an
exact rational), or some other object that is neither text nor numeric. -/
inductive PyVal where
  | none
  | str (s : String)
  | num (q : ℚ)
  | obj
  deriving DecidableEq

/-- The error taxonomy of `milestone1.py` (src lines 9-19): base
`WeatherAPIError` with specializations `LocationNotFoundError` and
`InvalidDataError`, each carrying a human-readable message. -/
inductive WeatherAPIError where
  | base (msg : String)
  | locationNotFound (msg : String)
  | invalidData (msg : String)
  deriving DecidableEq

deriving instance DecidableEq for Except

/-- Python `str.isspace` on the ASCII whitespace characters removed by
`str.strip()` with no arguments. -/
def isPySpace (c : Char) : Bool :=
  c = ' ' || c = '\t' || c = '\n' || c = '\r' || c = '\x0b' || c = '\x0c'

/-- Python `s.strip()` on the character list: drop leading and trailing
whitespace. -/
def pyStripL (l : List Char) : List Char :=
  List.rdropWhile isPySpace (l.dropWhile isPySpace)

/-- Python `s.strip()`. -/
def pyStrip (s : String) : String := String.mk (pyStripL s.data)

/-- Python `" ".join(xs)` where `xs` iterates a string, yielding its
characters: the characters interleaved with single spaces. -/
def joinChars : List Char → List Char
  | [] => []
  | [c] => [c]
  | c :: rest => c :: ' ' :: joinChars rest

/-- Python `" ".join(s)` for a string `s`. -/
def pyJoinSpace (s : String) : String := String.mk (joinChars s.data)

/-- `sanitize_text` (src lines 22-25): `s = s.strip()`, then
`s = " ".join(s.strip())`, then return `s`. -/
def sanitize_text (s : String) : String :=
  let s1 := pyStrip s
  pyJoinSpace (pyStrip s1)

/-- Numeric value of a list of decimal digit characters. -/
def natOfDigits (l : List Char) : ℕ :=
  l.foldl (fun a c => 10 * a + (c.toNat - 48)) 0

/-- Models the Python builtin `float(...)` applied to a string: optional
sign, then decimal digits with at most one decimal point.  (CPython also
accepts scientific notation, infinities and surrounding whitespace; no
claim under study depends on those, so they are elided.)  Returns `none`
exactly when the text is not numeric, modelling `ValueError`. -/
def parseFloat (s : String) : Option ℚ :=
  let sb : ℚ × List Char :=
    match s.data with
    | '-' :: t => (-1, t)
    | '+' :: t => (1, t)
    | t => (1, t)
  let intPart := sb.2.takeWhile Char.isDigit
  let rest := sb.2.dropWhile Char.isDigit
  match rest with
  | [] => if intPart.isEmpty then Option.none else some (sb.1 * natOfDigits intPart)
  | '.' :: frac =>
      if frac.all Char.isDigit && !(intPart.isEmpty && frac.isEmpty) then
        some (sb.1 * ((natOfDigits intPart : ℚ) + natOfDigits frac / 10 ^ frac.length))
      else Option.none
  | _ => Option.none

/-- Models the Python builtin `float(value)` on a `PyVal`: a number
converts to itself, a string is parsed, and `None` or any other object
raises `TypeError` (modelled as `none`). -/
def pyFloat : PyVal → Option ℚ
  | .num q => some q
  | .str s => parseFloat s
  | _ => Option.none

/-- `to_float` (src lines 28-33): `float(value)`, and on `TypeError` or
`ValueError` raise `InvalidDataError(f"{name} must be a number.")`. -/
def to_float (name : String) (value : PyVal) : Except WeatherAPIError ℚ :=
  match pyFloat value with
  | some v => .ok v
  | Option.none => .error (.invalidData (name ++ " must be a number."))

/-- Python `str.upper()` (ASCII). -/
def pyUpper (s : String) : String := String.mk (s.data.map Char.toUpper)

/-- The `WeatherObservation` record (src line 43): the private backing
fields `__city`, ..., `__notes`. -/
structure WeatherObservation where
  city : String
  country : String
  latitude : ℚ
  longitude : ℚ
  temperature_c : ℚ
  windspeed_kmh : ℚ
  observation_time : String
  notes : Option String
  deriving DecidableEq

/-- Validation part of the `city` setter (src lines 80-85): require a
string whose strip is non-empty, store `sanitize_text(value)`. -/
def city_validated (value : PyVal) : Except WeatherAPIError String :=
  match value with
  | .str s =>
      if pyStrip s = "" then .error (.invalidData "City must be a non-empty string")
      else .ok (sanitize_text s)
  | _ => .error (.invalidData "City must be a non-empty string")

/-- Validation part of the `country` setter (src lines 91-96): require a
string whose strip is non-empty, store `sanitize_text(value).upper()`. -/
def country_validated (value : PyVal) : Except WeatherAPIError String :=
  match value with
  | .str s =>
      if pyStrip s = "" then .error (.invalidData "Country must be a non-empty string")
      else .ok (pyUpper (sanitize_text s))
  | _ => .error (.invalidData "Country must be a non-empty string")

/-- Validation part of the `latitude` setter (src lines 102-108):
`v = to_float("latitude", value)`; raise unless `-90.0 <= v <= 90.0`. -/
def latitude_validated (value : PyVal) : Except WeatherAPIError ℚ :=
  match to_float "latitude" value with
  | .error e => .error e
  | .ok v =>
      if -90 ≤ v ∧ v ≤ 90 then .ok v
      else .error (.invalidData "Latitude must be between -90 and 90")

/-- Validation part of the `longitude` setter (src lines 114-120):
`v = to_float("Longitude", value)`; raise unless `-180.0 <= v <= 180.0`. -/
def longitude_validated (value : PyVal) : Except WeatherAPIError ℚ :=
  match to_float "Longitude" value with
  | .error e => .error e
  | .ok v =>
      if -180 ≤ v ∧ v ≤ 180 then .ok v
      else .error (.invalidData "Longitude must be between -180 and 180")

/-- Validation part of the `temperature_c` setter (src lines 126-132):
`v = to_float("Temperature_c", value)`; raise unless `-100.0 <= v <= 70.0`. -/
def temperature_validated (value : PyVal) : Except WeatherAPIError ℚ :=
  match to_float "Temperature_c" value with
  | .error e => .error e
  | .ok v =>
      if -100 ≤ v ∧ v ≤ 70 then .ok v
      else .error (.invalidData "Temperature seems unrealistic")

/-- Validation part of the `windspeed_kmh` setter (src lines 138-144):
`v = to_float("windspeed_kmh", value)`; raise if `v < 0`. -/
def windspeed_validated (value : PyVal) : Except WeatherAPIError ℚ :=
  match to_float "windspeed_kmh" value with
  | .error e => .error e
  | .ok v =>
      if v < 0 then .error (.invalidData "Windspeed cannot be negative")
      else .ok v

/-- Validation part of the `observation_time` setter (src lines 150-155):
require a string whose strip is non-empty, store `sanitize_text(value)`. -/
def observation_time_validated (value : PyVal) : Except WeatherAPIError String :=
  match value with
  | .str s =>
      if pyStrip s = "" then
        .error (.invalidData "Observation time must be a non-empty string")
      else .ok (sanitize_text s)
  | _ => .error (.invalidData "Observation time must be a non-empty string")

/-- Validation part of the `notes` setter body (src lines 163-169): `None`
is stored unchanged, a string is stored sanitized, anything else raises
`InvalidDataError`.  (The setter's `def` header on src line 162 is
malformed; the body's evident semantics is embedded.) -/
def notes_validated (value : PyVal) : Except WeatherAPIError (Option String) :=
  match value with
  | .none => .ok Option.none
  | .str s => .ok (some (sanitize_text s))
  | _ => .error (.invalidData "Notes must be a string or None")

/-- The `city` property assignment as a mutation: validate, then store; a
raise (`some` error) leaves the object untouched, mirroring that the
`raise` statement precedes the backing-field assignment in the source. -/
def city_set (o : WeatherObservation) (value : PyVal) :
    WeatherObservation × Option WeatherAPIError :=
  match city_validated value with
  | .ok c => ({ o with city := c }, Option.none)
  | .error e => (o, some e)

/-- The `country` property assignment as a mutation. -/
def country_set (o : WeatherObservation) (value : PyVal) :
    WeatherObservation × Option WeatherAPIError :=
  match country_validated value with
  | .ok c => ({ o with country := c }, Option.none)
  | .error e => (o, some e)

/-- The `latitude` property assignment as a mutation. -/
def latitude_set (o : WeatherObservation) (value : PyVal) :
    WeatherObservation × Option WeatherAPIError :=
  match latitude_validated value with
  | .ok v => ({ o with latitude := v }, Option.none)
  | .error e => (o, some e)

/-- The `longitude` property assignment as a mutation. -/
def longitude_set (o : WeatherObservation) (value : PyVal) :
    WeatherObservation × Option WeatherAPIError :=
  match longitude_validated value with
  | .ok v => ({ o with longitude := v }, Option.none)
  | .error e => (o, some e)

/-- The `temperature_c` property assignment as a mutation. -/
def temperature_c_set (o : WeatherObservation) (value : PyVal) :
    WeatherObservation × Option WeatherAPIError :=
  match temperature_validated value with
  | .ok v => ({ o with temperature_c := v }, Option.none)
  | .error e => (o, some e)

/-- The `windspeed_kmh` property assignment as a mutation. -/
def windspeed_kmh_set (o : WeatherObservation) (value : PyVal) :
    WeatherObservation × Option WeatherAPIError :=
  match windspeed_validated value with
  | .ok v => ({ o with windspeed_kmh := v }, Option.none)
  | .error e => (o, some e)

/-- The `observation_time` property assignment as a mutation. -/
def observation_time_set (o : WeatherObservation) (value : PyVal) :
    WeatherObservation × Option WeatherAPIError :=
  match observation_time_validated value with
  | .ok v => ({ o with observation_time := v }, Option.none)
  | .error e => (o, some e)

/-- The `notes` property assignment as a mutation. -/
def notes_set (o : WeatherObservation) (value : PyVal) :
    WeatherObservation × Option WeatherAPIError :=
  match notes_validated value with
  | .ok v => ({ o with notes := v }, Option.none)
  | .error e => (o, some e)

/-- `WeatherObservation.__init__` (src lines 45-63): every field is
assigned through its validated property setter, in source order `city`,
`country`, `latitude`, `longitude`, `temperature_c`, `windspeed_kmh`,
`observation_time`, `notes`; the first failing validation aborts
construction with that field's error and no object is produced. -/
def WeatherObservation.init
    (city country latitude longitude temperature_c windspeed_kmh observation_time notes :
      PyVal) : Except WeatherAPIError WeatherObservation :=
  match city_validated city with
  | .error e => .error e
  | .ok c =>
  match country_validated country with
  | .error e => .error e
  | .ok co =>
  match latitude_validated latitude with
  | .error e => .error e
  | .ok la =>
  match longitude_validated longitude with
  | .error e => .error e
  | .ok lo =>
  match temperature_validated temperature_c with
  | .error e => .error e
  | .ok t =>
  match windspeed_validated windspeed_kmh with
  | .error e => .error e
  | .ok w =>
  match observation_time_validated observation_time with
  | .error e => .error e
  | .ok ot =>
  match notes_validated notes with
  | .error e => .error e
  | .ok n => .ok ⟨c, co, la, lo, t, w, ot, n⟩

/-- `to_dict` (src lines 172-183): the plain mapping of the eight fields,
as an ordered association list with `None` notes rendered as `None`. -/
def to_dict (o : WeatherObservation) : List (String × PyVal) :=
  [("city", .str o.city), ("country", .str o.country),
   ("latitude", .num o.latitude), ("longitude", .num o.longitude),
   ("temperature_c", .num o.temperature_c), ("windspeed_kmh", .num o.windspeed_kmh),
   ("observation_time", .str o.observation_time),
   ("notes", match o.notes with | some s => .str s | Option.none => .none)]

/-- The per-field constraints of spec §3 on a live instance (the `notes`
constraint "None or text" is carried by the field's `Option String` type). -/
def Valid (o : WeatherObservation) : Prop :=
  o.city ≠ "" ∧ o.country ≠ "" ∧
  -90 ≤ o.latitude ∧ o.latitude ≤ 90 ∧
  -180 ≤ o.longitude ∧ o.longitude ≤ 180 ∧
  -100 ≤ o.temperature_c ∧ o.temperature_c ≤ 70 ∧
  0 ≤ o.windspeed_kmh ∧ o.observation_time ≠ ""

instance (o : WeatherObservation) : Decidable (Valid o) := by
  unfold Valid; infer_instance

/-- The observations producible by the public interface: constructed by
`__init__`, or the state after any property assignment (successful or
raising) on a producible observation. -/
inductive Reachable : WeatherObservation → Prop where
  | init {c co la lo t w ot n o} :
      WeatherObservation.init c co la lo t w ot n = .ok o → Reachable o
  | citySet {o v} : Reachable o → Reachable (city_set o v).1
  | countrySet {o v} : Reachable o → Reachable (country_set o v).1
  | latitudeSet {o v} : Reachable o → Reachable (latitude_set o v).1
  | longitudeSet {o v} : Reachable o → Reachable (longitude_set o v).1
  | temperatureSet {o v} : Reachable o → Reachable (temperature_c_set o v).1
  | windspeedSet {o v} : Reachable o → Reachable (windspeed_kmh_set o v).1
  | observationTimeSet {o v} : Reachable o → Reachable (observation_time_set o v).1
  | notesSet {o v} : Reachable o → Reachable (notes_set o v).1

/-- A concrete valid observation used to instantiate universally
quantified statements. -/
def obs0 : WeatherObservation :=
  ⟨"x", "X", 0, 0, 0, 0, "t", Option.none⟩

/-! Helper lemmas about stripping and character joining. -/

theorem dropWhile_rdropWhile (p : Char → Bool) (A : List Char)
    (hA : A.dropWhile p = A) :
    (A.rdropWhile p).dropWhile p = A.rdropWhile p := by
  rw [List.dropWhile_eq_self_iff]
  intro hl
  have hpre : A.rdropWhile p <+: A := List.rdropWhile_prefix p A
  have hlen : 0 < A.length := lt_of_lt_of_le hl hpre.length_le
  have h0 : (A.rdropWhile p).get ⟨0, hl⟩ = A.get ⟨0, hlen⟩ := by
    simpa using hpre.getElem hl
  rw [h0]
  exact (List.dropWhile_eq_self_iff).mp hA hlen

theorem pyStripL_idem (l : List Char) : pyStripL (pyStripL l) = pyStripL l := by
  unfold pyStripL
  rw [dropWhile_rdropWhile isPySpace _ (List.dropWhile_idempotent _ _),
    List.rdropWhile_idempotent]

theorem joinChars_cons (c : Char) (rest : List Char) :
    joinChars (c :: rest) = c :: (rest.map fun d => [' ', d]).flatten := by
  induction rest generalizing c with
  | nil => rfl
  | cons d t ih =>
      rw [show joinChars (c :: d :: t) = c :: ' ' :: joinChars (d :: t) from rfl, ih]
      simp

theorem intercalate_go_data (sep acc : String) (l : List String) :
    (String.intercalate.go acc sep l).data =
      acc.data ++ (l.map fun a => sep.data ++ a.data).flatten := by
  induction l generalizing acc with
  | nil => simp [String.intercalate.go]
  | cons a as ih => simp [String.intercalate.go, ih]

theorem intercalate_chars_data (l : List Char) :
    (String.intercalate " " (l.map Char.toString)).data = joinChars l := by
  cases l with
  | nil => rfl
  | cons c rest =>
      rw [joinChars_cons]
      show (String.intercalate.go c.toString " " (rest.map Char.toString)).data = _
      rw [intercalate_go_data]
      simp [List.map_map, Function.comp]
      rfl

/-- C3: for every text input `s`, `sanitize_text s` strips leading and
trailing whitespace and then joins the individual characters of the
stripped value with single spaces (a literal character-join, not a
word-collapse: `"ab cd"` becomes `"a b   c d"`, not `"ab cd"`).  It is a
total function on text, so it raises no error. -/
theorem C3_sanitize_text :
    (∀ s : String,
        sanitize_text s = String.intercalate " " ((pyStrip s).data.map Char.toString)) ∧
    sanitize_text " Paris " = "P a r i s" ∧
    sanitize_text "ab cd" = "a b   c d" ∧
    sanitize_text "ab cd" ≠ "ab cd" := by
  refine ⟨fun s => ?_, by decide, by decide, by decide⟩
  have h1 : sanitize_text s = String.mk (joinChars (pyStripL (pyStripL s.data))) := rfl
  rw [h1, pyStripL_idem]
  have h2 : (pyStrip s).data = pyStripL s.data := rfl
  rw [h2, ← intercalate_chars_data (pyStripL s.data)]

/-! Helper lemmas: non-emptiness of sanitized values and range facts
extracted from successful validations. -/

theorem joinChars_ne_nil {l : List Char} (h : l ≠ []) : joinChars l ≠ [] := by
  cases l with
  | nil => exact absurd rfl h
  | cons c t => cases t <;> simp [joinChars]

theorem string_ne_empty_iff (s : String) : s ≠ "" ↔ s.data ≠ [] := by
  constructor
  · intro h hd
    apply h
    conv_lhs => rw [show s = String.mk s.data from rfl]
    rw [hd]
  · intro h he
    exact h (congrArg String.data he)

theorem sanitize_text_ne_empty {s : String} (h : pyStrip s ≠ "") :
    sanitize_text s ≠ "" := by
  have hl : pyStripL s.data ≠ [] := (string_ne_empty_iff (pyStrip s)).mp h
  have h1 : sanitize_text s = String.mk (joinChars (pyStripL (pyStripL s.data))) := rfl
  rw [h1, pyStripL_idem, string_ne_empty_iff]
  exact joinChars_ne_nil hl

theorem pyUpper_ne_empty {s : String} (h : s ≠ "") : pyUpper s ≠ "" := by
  rw [string_ne_empty_iff] at h ⊢
  show s.data.map Char.toUpper ≠ []
  simpa using h

theorem city_validated_ok {v : PyVal} {c : String} (h : city_validated v = .ok c) :
    c ≠ "" := by
  cases v with
  | str s =>
      simp only [city_validated] at h
      split at h
      · exact absurd h (by simp)
      · rename_i hne
        simp only [Except.ok.injEq] at h
        rw [← h]
        exact sanitize_text_ne_empty hne
  | none => simp [city_validated] at h
  | num q => simp [city_validated] at h
  | obj => simp [city_validated] at h

theorem country_validated_ok {v : PyVal} {c : String} (h : country_validated v = .ok c) :
    c ≠ "" := by
  cases v with
  | str s =>
      simp only [country_validated] at h
      split at h
      · exact absurd h (by simp)
      · rename_i hne
        simp only [Except.ok.injEq] at h
        rw [← h]
        exact pyUpper_ne_empty (sanitize_text_ne_empty hne)
  | none => simp [country_validated] at h
  | num q => simp [country_validated] at h
  | obj => simp [country_validated] at h

theorem observation_time_validated_ok {v : PyVal} {c : String}
    (h : observation_time_validated v = .ok c) : c ≠ "" := by
  cases v with
  | str s =>
      simp only [observation_time_validated] at h
      split at h
      · exact absurd h (by simp)
      · rename_i hne
        simp only [Except.ok.injEq] at h
        rw [← h]
        exact sanitize_text_ne_empty hne
  | none => simp [observation_time_validated] at h
  | num q => simp [observation_time_validated] at h
  | obj => simp [observation_time_validated] at h

theorem latitude_validated_ok {v : PyVal} {q : ℚ} (h : latitude_validated v = .ok q) :
    -90 ≤ q ∧ q ≤ 90 := by
  unfold latitude_validated at h
  split at h
  · exact absurd h (by simp)
  · split at h
    · rename_i hrange
      simp only [Except.ok.injEq] at h
      rw [← h]
      exact hrange
    · exact absurd h (by simp)

theorem longitude_validated_ok {v : PyVal} {q : ℚ} (h : longitude_validated v = .ok q) :
    -180 ≤ q ∧ q ≤ 180 := by
  unfold longitude_validated at h
  split at h
  · exact absurd h (by simp)
  · split at h
    · rename_i hrange
      simp only [Except.ok.injEq] at h
      rw [← h]
      exact hrange
    · exact absurd h (by simp)

theorem temperature_validated_ok {v : PyVal} {q : ℚ} (h : temperature_validated v = .ok q) :
    -100 ≤ q ∧ q ≤ 70 := by
  unfold temperature_validated at h
  split at h
  · exact absurd h (by simp)
  · split at h
    · rename_i hrange
      simp only [Except.ok.injEq] at h
      rw [← h]
      exact hrange
    · exact absurd h (by simp)

theorem windspeed_validated_ok {v : PyVal} {q : ℚ} (h : windspeed_validated v = .ok q) :
    0 ≤ q := by
  unfold windspeed_validated at h
  split at h
  · exact absurd h (by simp)
  · split at h
    · exact absurd h (by simp)
    · rename_i hneg
      simp only [Except.ok.injEq] at h
      rw [← h]
      exact not_lt.mp hneg

/-- C6: for any input coercing to `q`, the latitude setter stores `q` and
raises nothing iff `-90 ≤ q ≤ 90`, and raises `InvalidDataError` leaving
the object unchanged iff `q` lies outside the closed interval. -/
theorem C6_latitude_range (o : WeatherObservation) (v : PyVal) (q : ℚ)
    (h : to_float "latitude" v = .ok q) :
    (latitude_set o v = ({ o with latitude := q }, Option.none) ↔ -90 ≤ q ∧ q ≤ 90) ∧
    (latitude_set o v = (o, some (.invalidData "Latitude must be between -90 and 90")) ↔
      q < -90 ∨ 90 < q) := by
  have hv : latitude_validated v =
      if -90 ≤ q ∧ q ≤ 90 then .ok q
      else .error (.invalidData "Latitude must be between -90 and 90") := by
    unfold latitude_validated
    rw [h]
  by_cases hq : -90 ≤ q ∧ q ≤ 90
  · have hset : latitude_set o v = ({ o with latitude := q }, Option.none) := by
      unfold latitude_set
      rw [hv, if_pos hq]
    rw [hset]
    constructor
    · simp [hq]
    · constructor
      · intro heq
        exact absurd (congrArg Prod.snd heq) (by simp)
      · intro hout
        rcases hout with h1 | h1
        · linarith [hq.1]
        · linarith [hq.2]
  · have hset : latitude_set o v =
        (o, some (.invalidData "Latitude must be between -90 and 90")) := by
      unfold latitude_set
      rw [hv, if_neg hq]
    rw [hset]
    constructor
    · constructor
      · intro heq
        exact absurd (congrArg Prod.snd heq) (by simp)
      · intro hin
        exact absurd hin hq
    · constructor
      · intro _
        rcases not_and_or.mp hq with h1 | h1
        · exact Or.inl (not_le.mp h1)
        · exact Or.inr (not_le.mp h1)
      · intro _
        rfl

/-- Witness for C6 at the concrete latitudes 95, -91, 90 and -90. -/
theorem C6_witness :
    latitude_set obs0 (.num 95) =
      (obs0, some (.invalidData "Latitude must be between -90 and 90")) ∧
    latitude_set obs0 (.num (-91)) =
      (obs0, some (.invalidData "Latitude must be between -90 and 90")) ∧
    latitude_set obs0 (.num 90) = ({ obs0 with latitude := 90 }, Option.none) ∧
    latitude_set obs0 (.num (-90)) = ({ obs0 with latitude := -90 }, Option.none) := by
  refine ⟨?_, ?_, ?_, ?_⟩
  · exact (C6_latitude_range obs0 (.num 95) 95 rfl).2.mpr (by norm_num)
  · exact (C6_latitude_range obs0 (.num (-91)) (-91) rfl).2.mpr (by norm_num)
  · exact (C6_latitude_range obs0 (.num 90) 90 rfl).1.mpr (by norm_num)
  · exact (C6_latitude_range obs0 (.num (-90)) (-90) rfl).1.mpr (by norm_num)

/-- C7: for any input coercing to `q`, the windspeed setter raises
`InvalidDataError` leaving the object unchanged iff `q < 0`, and stores
`q` iff `0 ≤ q` (in particular 0 succeeds). -/
theorem C7_windspeed_nonneg (o : WeatherObservation) (v : PyVal) (q : ℚ)
    (h : to_float "windspeed_kmh" v = .ok q) :
    (windspeed_kmh_set o v = (o, some (.invalidData "Windspeed cannot be negative")) ↔
      q < 0) ∧
    (windspeed_kmh_set o v = ({ o with windspeed_kmh := q }, Option.none) ↔ 0 ≤ q) := by
  have hv : windspeed_validated v =
      if q < 0 then .error (.invalidData "Windspeed cannot be negative") else .ok q := by
    unfold windspeed_validated
    rw [h]
  by_cases hq : q < 0
  · have hset : windspeed_kmh_set o v =
        (o, some (.invalidData "Windspeed cannot be negative")) := by
      unfold windspeed_kmh_set
      rw [hv, if_pos hq]
    rw [hset]
    constructor
    · simp [hq]
    · constructor
      · intro heq
        exact absurd (congrArg Prod.snd heq) (by simp)
      · intro hin
        linarith
  · have hset : windspeed_kmh_set o v = ({ o with windspeed_kmh := q }, Option.none) := by
      unfold windspeed_kmh_set
      rw [hv, if_neg hq]
    rw [hset]
    constructor
    · constructor
      · intro heq
        exact absurd (congrArg Prod.snd heq) (by simp)
      · intro hlt
        exact absurd hlt hq
    · simp [not_lt.mp hq]

/-- Witness for C7 at the concrete windspeeds -0.1 and 0. -/
theorem C7_witness :
    windspeed_kmh_set obs0 (.num (-0.1)) =
      (obs0, some (.invalidData "Windspeed cannot be negative")) ∧
    windspeed_kmh_set obs0 (.num 0) = ({ obs0 with windspeed_kmh := 0 }, Option.none) := by
  constructor
  · exact (C7_windspeed_nonneg obs0 (.num (-0.1)) (-0.1) rfl).1.mpr (by norm_num)
  · exact (C7_windspeed_nonneg obs0 (.num 0) 0 rfl).2.mpr (by norm_num)

/-- C8: `to_float name value` returns the converted number when the value
converts, and otherwise raises `InvalidDataError` whose message is the
field name followed by " must be a number." — so it names the field; in
particular the non-numeric text "abc" given to the latitude setter raises
`InvalidDataError` with message "latitude must be a number.". -/
theorem C8_to_float_names_field (name : String) (value : PyVal) (o : WeatherObservation) :
    (∀ q, pyFloat value = some q → to_float name value = .ok q) ∧
    (pyFloat value = Option.none →
      to_float name value = .error (.invalidData (name ++ " must be a number."))) ∧
    "latitude" ++ " must be a number." = "latitude must be a number." ∧
    pyFloat (.str "abc") = Option.none ∧
    latitude_set o (.str "abc") = (o, some (.invalidData "latitude must be a number.")) := by
  refine ⟨?_, ?_, by decide, by decide, ?_⟩
  · intro q hq
    unfold to_float
    rw [hq]
  · intro hq
    unfold to_float
    rw [hq]
  · have habc : to_float "latitude" (.str "abc") =
        .error (.invalidData "latitude must be a number.") := by decide
    unfold latitude_set latitude_validated
    rw [habc]

/-- Witness for C8: conversion succeeds on the number 3 and fails on the
text "abc", with the message naming "latitude". -/
theorem C8_witness :
    to_float "latitude" (.num 3) = .ok 3 ∧
    to_float "latitude" (.str "abc") = .error (.invalidData "latitude must be a number.") ∧
    latitude_set obs0 (.str "abc") =
      (obs0, some (.invalidData "latitude must be a number.")) := by
  refine ⟨(C8_to_float_names_field "latitude" (.num 3) obs0).1 3 rfl, ?_, ?_⟩
  · have h := (C8_to_float_names_field "latitude" (.str "abc") obs0).2.1
      (by decide)
    rw [h]
    decide
  · exact (C8_to_float_names_field "latitude" (.str "abc") obs0).2.2.2.2

/-- C9: the notes setter stores `None` unchanged, stores any text
sanitized, and raises `InvalidDataError` on every value that is neither
`None` nor text. -/
theorem C9_notes_setter (o : WeatherObservation) :
    notes_set o .none = ({ o with notes := Option.none }, Option.none) ∧
    (∀ s, notes_set o (.str s) = ({ o with notes := some (sanitize_text s) }, Option.none)) ∧
    (∀ v : PyVal, v ≠ .none → (∀ s, v ≠ .str s) →
      notes_set o v = (o, some (.invalidData "Notes must be a string or None"))) := by
  refine ⟨rfl, fun s => rfl, ?_⟩
  intro v h1 h2
  cases v with
  | none => exact absurd rfl h1
  | str s => exact absurd rfl (h2 s)
  | num q => rfl
  | obj => rfl

/-- Witness for C9: the integer 3 (neither None nor text) raises. -/
theorem C9_witness :
    notes_set obs0 (.num 3) = (obs0, some (.invalidData "Notes must be a string or None")) ∧
    notes_set obs0 .none = ({ obs0 with notes := Option.none }, Option.none) := by
  constructor
  · exact (C9_notes_setter obs0).2.2 (.num 3) (by decide) (fun s h => nomatch h)
  · exact (C9_notes_setter obs0).1

/-- C10: every setter validates before assigning — whenever a property
assignment raises, the resulting state equals the original object for all
eight fields' setters. -/
theorem C10_failed_set_unchanged (o : WeatherObservation) (v : PyVal) (e : WeatherAPIError) :
    ((city_set o v).2 = some e → (city_set o v).1 = o) ∧
    ((country_set o v).2 = some e → (country_set o v).1 = o) ∧
    ((latitude_set o v).2 = some e → (latitude_set o v).1 = o) ∧
    ((longitude_set o v).2 = some e → (longitude_set o v).1 = o) ∧
    ((temperature_c_set o v).2 = some e → (temperature_c_set o v).1 = o) ∧
    ((windspeed_kmh_set o v).2 = some e → (windspeed_kmh_set o v).1 = o) ∧
    ((observation_time_set o v).2 = some e → (observation_time_set o v).1 = o) ∧
    ((notes_set o v).2 = some e → (notes_set o v).1 = o) := by
  refine ⟨?_, ?_, ?_, ?_, ?_, ?_, ?_, ?_⟩
  · unfold city_set
    cases h : city_validated v <;> simp
  · unfold country_set
    cases h : country_validated v <;> simp
  · unfold latitude_set
    cases h : latitude_validated v <;> simp
  · unfold longitude_set
    cases h : longitude_validated v <;> simp
  · unfold temperature_c_set
    cases h : temperature_validated v <;> simp
  · unfold windspeed_kmh_set
    cases h : windspeed_validated v <;> simp
  · unfold observation_time_set
    cases h : observation_time_validated v <;> simp
  · unfold notes_set
    cases h : notes_validated v <;> simp

/-- Witness for C10: a failing city assignment (numeric input) leaves the
object unchanged. -/
theorem C10_witness :
    (city_set obs0 (.num 1)).2 = some (.invalidData "City must be a non-empty string") ∧
    (city_set obs0 (.num 1)).1 = obs0 := by
  constructor
  · rfl
  · exact (C10_failed_set_unchanged obs0 (.num 1)
      (.invalidData "City must be a non-empty string")).1 rfl

/-! Validity preservation by each setter and by construction. -/

theorem Valid_city_set {o : WeatherObservation} (v : PyVal) (h : Valid o) :
    Valid (city_set o v).1 := by
  unfold city_set
  cases hc : city_validated v with
  | error e => exact h
  | ok c =>
      obtain ⟨_, h2, h3, h4, h5, h6, h7, h8, h9, h10⟩ := h
      exact ⟨city_validated_ok hc, h2, h3, h4, h5, h6, h7, h8, h9, h10⟩

theorem Valid_country_set {o : WeatherObservation} (v : PyVal) (h : Valid o) :
    Valid (country_set o v).1 := by
  unfold country_set
  cases hc : country_validated v with
  | error e => exact h
  | ok c =>
      obtain ⟨h1, _, h3, h4, h5, h6, h7, h8, h9, h10⟩ := h
      exact ⟨h1, country_validated_ok hc, h3, h4, h5, h6, h7, h8, h9, h10⟩

theorem Valid_latitude_set {o : WeatherObservation} (v : PyVal) (h : Valid o) :
    Valid (latitude_set o v).1 := by
  unfold latitude_set
  cases hc : latitude_validated v with
  | error e => exact h
  | ok q =>
      obtain ⟨h1, h2, _, _, h5, h6, h7, h8, h9, h10⟩ := h
      exact ⟨h1, h2, (latitude_validated_ok hc).1, (latitude_validated_ok hc).2,
        h5, h6, h7, h8, h9, h10⟩

theorem Valid_longitude_set {o : WeatherObservation} (v : PyVal) (h : Valid o) :
    Valid (longitude_set o v).1 := by
  unfold longitude_set
  cases hc : longitude_validated v with
  | error e => exact h
  | ok q =>
      obtain ⟨h1, h2, h3, h4, _, _, h7, h8, h9, h10⟩ := h
      exact ⟨h1, h2, h3, h4, (longitude_validated_ok hc).1, (longitude_validated_ok hc).2,
        h7, h8, h9, h10⟩

theorem Valid_temperature_c_set {o : WeatherObservation} (v : PyVal) (h : Valid o) :
    Valid (temperature_c_set o v).1 := by
  unfold temperature_c_set
  cases hc : temperature_validated v with
  | error e => exact h
  | ok q =>
      obtain ⟨h1, h2, h3, h4, h5, h6, _, _, h9, h10⟩ := h
      exact ⟨h1, h2, h3, h4, h5, h6, (temperature_validated_ok hc).1,
        (temperature_validated_ok hc).2, h9, h10⟩

theorem Valid_windspeed_kmh_set {o : WeatherObservation} (v : PyVal) (h : Valid o) :
    Valid (windspeed_kmh_set o v).1 := by
  unfold windspeed_kmh_set
  cases hc : windspeed_validated v with
  | error e => exact h
  | ok q =>
      obtain ⟨h1, h2, h3, h4, h5, h6, h7, h8, _, h10⟩ := h
      exact ⟨h1, h2, h3, h4, h5, h6, h7, h8, windspeed_validated_ok hc, h10⟩

theorem Valid_observation_time_set {o : WeatherObservation} (v : PyVal) (h : Valid o) :
    Valid (observation_time_set o v).1 := by
  unfold observation_time_set
  cases hc : observation_time_validated v with
  | error e => exact h
  | ok c =>
      obtain ⟨h1, h2, h3, h4, h5, h6, h7, h8, h9, _⟩ := h
      exact ⟨h1, h2, h3, h4, h5, h6, h7, h8, h9, observation_time_validated_ok hc⟩

theorem Valid_notes_set {o : WeatherObservation} (v : PyVal) (h : Valid o) :
    Valid (notes_set o v).1 := by
  unfold notes_set
  cases hc : notes_validated v with
  | error e => exact h
  | ok n => exact h

theorem init_ok_Valid {c co la lo t w ot n : PyVal} {o : WeatherObservation}
    (h : WeatherObservation.init c co la lo t w ot n = .ok o) : Valid o := by
  unfold WeatherObservation.init at h
  split at h
  · exact absurd h (by simp)
  · rename_i c1 hc
    split at h
    · exact absurd h (by simp)
    · rename_i c2 hco
      split at h
      · exact absurd h (by simp)
      · rename_i q3 hla
        split at h
        · exact absurd h (by simp)
        · rename_i q4 hlo
          split at h
          · exact absurd h (by simp)
          · rename_i q5 ht
            split at h
            · exact absurd h (by simp)
            · rename_i q6 hw
              split at h
              · exact absurd h (by simp)
              · rename_i c7 hot
                split at h
                · exact absurd h (by simp)
                · rename_i n8 hn
                  simp only [Except.ok.injEq] at h
                  rw [← h]
                  exact ⟨city_validated_ok hc, country_validated_ok hco,
                    (latitude_validated_ok hla).1, (latitude_validated_ok hla).2,
                    (longitude_validated_ok hlo).1, (longitude_validated_ok hlo).2,
                    (temperature_validated_ok ht).1, (temperature_validated_ok ht).2,
                    windspeed_validated_ok hw, observation_time_validated_ok hot⟩

theorem latitude_validated_num (q : ℚ) :
    latitude_validated (.num q) =
      if -90 ≤ q ∧ q ≤ 90 then .ok q
      else .error (.invalidData "Latitude must be between -90 and 90") := rfl

theorem longitude_validated_num (q : ℚ) :
    longitude_validated (.num q) =
      if -180 ≤ q ∧ q ≤ 180 then .ok q
      else .error (.invalidData "Longitude must be between -180 and 180") := rfl

theorem temperature_validated_num (q : ℚ) :
    temperature_validated (.num q) =
      if -100 ≤ q ∧ q ≤ 70 then .ok q
      else .error (.invalidData "Temperature seems unrealistic") := rfl

theorem windspeed_validated_num (q : ℚ) :
    windspeed_validated (.num q) =
      if q < 0 then .error (.invalidData "Windspeed cannot be negative")
      else .ok q := rfl

/-- The observation actually produced by the §8 construction scenario:
every text field comes out character-joined by `sanitize_text`, and
`country` additionally upper-cased. -/
def parisObs : WeatherObservation :=
  ⟨"P a r i s", "F R", 48.8566, 2.3522, 18.0, 12.5,
   "2 0 2 4 - 0 5 - 0 1 T 1 2 : 0 0 : 0 0 Z", Option.none⟩

theorem init_paris :
    WeatherObservation.init (.str "Paris") (.str "fr") (.num 48.8566) (.num 2.3522)
      (.num 18.0) (.num 12.5) (.str "2024-05-01T12:00:00Z") .none = .ok parisObs := by
  have hc : city_validated (.str "Paris") = .ok "P a r i s" := by decide
  have hco : country_validated (.str "fr") = .ok "F R" := by decide
  have hla : latitude_validated (.num 48.8566) = .ok 48.8566 := by
    rw [latitude_validated_num, if_pos (by norm_num)]
  have hlo : longitude_validated (.num 2.3522) = .ok 2.3522 := by
    rw [longitude_validated_num, if_pos (by norm_num)]
  have ht : temperature_validated (.num 18.0) = .ok 18.0 := by
    rw [temperature_validated_num, if_pos (by norm_num)]
  have hw : windspeed_validated (.num 12.5) = .ok 12.5 := by
    rw [windspeed_validated_num, if_neg (by norm_num)]
  have hot : observation_time_validated (.str "2024-05-01T12:00:00Z") =
      .ok "2 0 2 4 - 0 5 - 0 1 T 1 2 : 0 0 : 0 0 Z" := by decide
  have hn : notes_validated .none = .ok Option.none := rfl
  simp only [WeatherObservation.init, hc, hco, hla, hlo, ht, hw, hot, hn, parisObs]

/-- C2 fails on the code: the §8 scenario's construction does not yield
the claimed mapping, because `sanitize_text` character-joins every text
field ("Paris" is stored as "P a r i s"). -/
theorem C2_counterexample :
    (WeatherObservation.init (.str "Paris") (.str "fr") (.num 48.8566) (.num 2.3522)
        (.num 18.0) (.num 12.5) (.str "2024-05-01T12:00:00Z") .none).map to_dict ≠
      .ok [("city", .str "Paris"), ("country", .str "FR"),
        ("latitude", .num 48.8566), ("longitude", .num 2.3522),
        ("temperature_c", .num 18.0), ("windspeed_kmh", .num 12.5),
        ("observation_time", .str "2024-05-01T12:00:00Z"), ("notes", .none)] := by
  intro h
  rw [init_paris] at h
  simp only [Except.map, Except.ok.injEq] at h
  have hcity : (to_dict parisObs).head? = some ("city", .str "P a r i s") := rfl
  rw [h] at hcity
  simp only [List.head?_cons, Option.some.injEq, Prod.mk.injEq, PyVal.str.injEq] at hcity
  exact absurd hcity.2 (by decide)

/-- C2 (amended): the scenario's construction succeeds, and `to_dict`
returns the mapping with the character-joined sanitized texts — city
"P a r i s", country "F R", observation_time
"2 0 2 4 - 0 5 - 0 1 T 1 2 : 0 0 : 0 0 Z" — the numeric fields exactly as
given and notes `None`. -/
theorem C2_amended_scenario :
    WeatherObservation.init (.str "Paris") (.str "fr") (.num 48.8566) (.num 2.3522)
        (.num 18.0) (.num 12.5) (.str "2024-05-01T12:00:00Z") .none = .ok parisObs ∧
    to_dict parisObs =
      [("city", .str "P a r i s"), ("country", .str "F R"),
       ("latitude", .num 48.8566), ("longitude", .num 2.3522),
       ("temperature_c", .num 18.0), ("windspeed_kmh", .num 12.5),
       ("observation_time", .str "2 0 2 4 - 0 5 - 0 1 T 1 2 : 0 0 : 0 0 Z"),
       ("notes", .none)] :=
  ⟨init_paris, rfl⟩

/-- C4 fails on the code: setting country to "us" succeeds but the stored
value is not "US". -/
theorem C4_counterexample :
    (country_set obs0 (.str "us")).2 = Option.none ∧
    (country_set obs0 (.str "us")).1.country ≠ "US" := by
  constructor
  · rfl
  · intro h
    have : (country_set obs0 (.str "us")).1.country = "U S" := rfl
    rw [this] at h
    exact absurd h (by decide)

/-- C4 (amended): setting country to "us" succeeds and the value read
back (and reported by `to_dict`) is "U S" — the character-joined,
upper-cased sanitization. -/
theorem C4_country_us_amended (o : WeatherObservation) :
    country_set o (.str "us") = ({ o with country := "U S" }, Option.none) ∧
    (to_dict (country_set o (.str "us")).1).lookup "country" = some (.str "U S") := by
  have h : country_validated (.str "us") = .ok "U S" := by decide
  constructor
  · unfold country_set
    rw [h]
  · unfold country_set
    rw [h]
    rfl

/-- C5: every observation producible through the public interface
(construction, then any sequence of property assignments) satisfies all
the field constraints of spec §3; and construction validates the fields
in the order city, country, latitude, longitude, temperature_c,
windspeed_kmh, observation_time, notes — the first failing field aborts
construction with that field's error, shown for every one of the eight
positions of the chain. -/
theorem C5_invariant :
    (∀ o : WeatherObservation, Reachable o → Valid o) ∧
    (∀ c co la lo t w ot n e, city_validated c = .error e →
      WeatherObservation.init c co la lo t w ot n = .error e) ∧
    (∀ c co la lo t w ot n c1 e, city_validated c = .ok c1 →
      country_validated co = .error e →
      WeatherObservation.init c co la lo t w ot n = .error e) ∧
    (∀ c co la lo t w ot n c1 c2 e, city_validated c = .ok c1 →
      country_validated co = .ok c2 → latitude_validated la = .error e →
      WeatherObservation.init c co la lo t w ot n = .error e) ∧
    (∀ c co la lo t w ot n c1 c2 q3 e, city_validated c = .ok c1 →
      country_validated co = .ok c2 → latitude_validated la = .ok q3 →
      longitude_validated lo = .error e →
      WeatherObservation.init c co la lo t w ot n = .error e) ∧
    (∀ c co la lo t w ot n c1 c2 q3 q4 e, city_validated c = .ok c1 →
      country_validated co = .ok c2 → latitude_validated la = .ok q3 →
      longitude_validated lo = .ok q4 → temperature_validated t = .error e →
      WeatherObservation.init c co la lo t w ot n = .error e) ∧
    (∀ c co la lo t w ot n c1 c2 q3 q4 q5 e, city_validated c = .ok c1 →
      country_validated co = .ok c2 → latitude_validated la = .ok q3 →
      longitude_validated lo = .ok q4 → temperature_validated t = .ok q5 →
      windspeed_validated w = .error e →
      WeatherObservation.init c co la lo t w ot n = .error e) ∧
    (∀ c co la lo t w ot n c1 c2 q3 q4 q5 q6 e, city_validated c = .ok c1 →
      country_validated co = .ok c2 → latitude_validated la = .ok q3 →
      longitude_validated lo = .ok q4 → temperature_validated t = .ok q5 →
      windspeed_validated w = .ok q6 → observation_time_validated ot = .error e →
      WeatherObservation.init c co la lo t w ot n = .error e) ∧
    (∀ c co la lo t w ot n c1 c2 q3 q4 q5 q6 c7 e, city_validated c = .ok c1 →
      country_validated co = .ok c2 → latitude_validated la = .ok q3 →
      longitude_validated lo = .ok q4 → temperature_validated t = .ok q5 →
      windspeed_validated w = .ok q6 → observation_time_validated ot = .ok c7 →
      notes_validated n = .error e →
      WeatherObservation.init c co la lo t w ot n = .error e) := by
  refine ⟨?_, ?_, ?_, ?_, ?_, ?_, ?_, ?_, ?_⟩
  · intro o h
    induction h with
    | init hok => exact init_ok_Valid hok
    | citySet _ ih => exact Valid_city_set _ ih
    | countrySet _ ih => exact Valid_country_set _ ih
    | latitudeSet _ ih => exact Valid_latitude_set _ ih
    | longitudeSet _ ih => exact Valid_longitude_set _ ih
    | temperatureSet _ ih => exact Valid_temperature_c_set _ ih
    | windspeedSet _ ih => exact Valid_windspeed_kmh_set _ ih
    | observationTimeSet _ ih => exact Valid_observation_time_set _ ih
    | notesSet _ ih => exact Valid_notes_set _ ih
  · intro c co la lo t w ot n e h1
    simp only [WeatherObservation.init, h1]
  · intro c co la lo t w ot n c1 e h1 h2
    simp only [WeatherObservation.init, h1, h2]
  · intro c co la lo t w ot n c1 c2 e h1 h2 h3
    simp only [WeatherObservation.init, h1, h2, h3]
  · intro c co la lo t w ot n c1 c2 q3 e h1 h2 h3 h4
    simp only [WeatherObservation.init, h1, h2, h3, h4]
  · intro c co la lo t w ot n c1 c2 q3 q4 e h1 h2 h3 h4 h5
    simp only [WeatherObservation.init, h1, h2, h3, h4, h5]
  · intro c co la lo t w ot n c1 c2 q3 q4 q5 e h1 h2 h3 h4 h5 h6
    simp only [WeatherObservation.init, h1, h2, h3, h4, h5, h6]
  · intro c co la lo t w ot n c1 c2 q3 q4 q5 q6 e h1 h2 h3 h4 h5 h6 h7
    simp only [WeatherObservation.init, h1, h2, h3, h4, h5, h6, h7]
  · intro c co la lo t w ot n c1 c2 q3 q4 q5 q6 c7 e h1 h2 h3 h4 h5 h6 h7 h8
    simp only [WeatherObservation.init, h1, h2, h3, h4, h5, h6, h7, h8]

/-- Witness for C5: the scenario observation is reachable and valid, and
one concrete construction per chain position shows the first invalid
field — city, country, latitude, longitude, temperature_c, windspeed_kmh,
observation_time or notes — aborting with that field's error. -/
theorem C5_witness :
    Reachable parisObs ∧ Valid parisObs ∧
    WeatherObservation.init (.num 1) (.str "fr") (.num 0) (.num 0) (.num 0) (.num 0)
      (.str "t") .none = .error (.invalidData "City must be a non-empty string") ∧
    WeatherObservation.init (.str "Paris") (.num 2) (.num 0) (.num 0) (.num 0)
      (.num 0) (.str "t") .none =
      .error (.invalidData "Country must be a non-empty string") ∧
    WeatherObservation.init (.str "Paris") (.str "fr") (.num 95) (.num 0) (.num 0)
      (.num 0) (.str "t") .none =
      .error (.invalidData "Latitude must be between -90 and 90") ∧
    WeatherObservation.init (.str "Paris") (.str "fr") (.num 0) (.num 200) (.num 0)
      (.num 0) (.str "t") .none =
      .error (.invalidData "Longitude must be between -180 and 180") ∧
    WeatherObservation.init (.str "Paris") (.str "fr") (.num 0) (.num 0) (.num 100)
      (.num 0) (.str "t") .none =
      .error (.invalidData "Temperature seems unrealistic") ∧
    WeatherObservation.init (.str "Paris") (.str "fr") (.num 0) (.num 0) (.num 0)
      (.num (-1)) (.str "t") .none =
      .error (.invalidData "Windspeed cannot be negative") ∧
    WeatherObservation.init (.str "Paris") (.str "fr") (.num 0) (.num 0) (.num 0)
      (.num 0) (.num 5) .none =
      .error (.invalidData "Observation time must be a non-empty string") ∧
    WeatherObservation.init (.str "Paris") (.str "fr") (.num 0) (.num 0) (.num 0)
      (.num 0) (.str "t") (.num 1) =
      .error (.invalidData "Notes must be a string or None") := by
  have hr : Reachable parisObs := Reachable.init init_paris
  have hcity : city_validated (.str "Paris") = .ok "P a r i s" := by decide
  have hcountry : country_validated (.str "fr") = .ok "F R" := by decide
  have hla0 : latitude_validated (.num 0) = .ok 0 := by
    rw [latitude_validated_num, if_pos (by norm_num)]
  have hlo0 : longitude_validated (.num 0) = .ok 0 := by
    rw [longitude_validated_num, if_pos (by norm_num)]
  have ht0 : temperature_validated (.num 0) = .ok 0 := by
    rw [temperature_validated_num, if_pos (by norm_num)]
  have hw0 : windspeed_validated (.num 0) = .ok 0 := by
    rw [windspeed_validated_num, if_neg (by norm_num)]
  have hot : observation_time_validated (.str "t") = .ok "t" := by decide
  have hlaE : latitude_validated (.num 95) =
      .error (.invalidData "Latitude must be between -90 and 90") := by
    rw [latitude_validated_num, if_neg (by norm_num)]
  have hloE : longitude_validated (.num 200) =
      .error (.invalidData "Longitude must be between -180 and 180") := by
    rw [longitude_validated_num, if_neg (by norm_num)]
  have htE : temperature_validated (.num 100) =
      .error (.invalidData "Temperature seems unrealistic") := by
    rw [temperature_validated_num, if_neg (by norm_num)]
  have hwE : windspeed_validated (.num (-1)) =
      .error (.invalidData "Windspeed cannot be negative") := by
    rw [windspeed_validated_num, if_pos (by norm_num)]
  refine ⟨hr, C5_invariant.1 parisObs hr, ?_, ?_, ?_, ?_, ?_, ?_, ?_, ?_⟩
  · exact C5_invariant.2.1 (.num 1) (.str "fr") (.num 0) (.num 0) (.num 0) (.num 0)
      (.str "t") .none _ rfl
  · exact C5_invariant.2.2.1 (.str "Paris") (.num 2) (.num 0) (.num 0) (.num 0)
      (.num 0) (.str "t") .none "P a r i s" _ hcity rfl
  · exact C5_invariant.2.2.2.1 (.str "Paris") (.str "fr") (.num 95) (.num 0) (.num 0)
      (.num 0) (.str "t") .none "P a r i s" "F R" _ hcity hcountry hlaE
  · exact C5_invariant.2.2.2.2.1 (.str "Paris") (.str "fr") (.num 0) (.num 200)
      (.num 0) (.num 0) (.str "t") .none "P a r i s" "F R" 0 _ hcity hcountry hla0 hloE
  · exact C5_invariant.2.2.2.2.2.1 (.str "Paris") (.str "fr") (.num 0) (.num 0)
      (.num 100) (.num 0) (.str "t") .none "P a r i s" "F R" 0 0 _ hcity hcountry
      hla0 hlo0 htE
  · exact C5_invariant.2.2.2.2.2.2.1 (.str "Paris") (.str "fr") (.num 0) (.num 0)
      (.num 0) (.num (-1)) (.str "t") .none "P a r i s" "F R" 0 0 0 _ hcity hcountry
      hla0 hlo0 ht0 hwE
  · exact C5_invariant.2.2.2.2.2.2.2.1 (.str "Paris") (.str "fr") (.num 0) (.num 0)
      (.num 0) (.num 0) (.num 5) .none "P a r i s" "F R" 0 0 0 0 _ hcity hcountry
      hla0 hlo0 ht0 hw0 rfl
  · exact C5_invariant.2.2.2.2.2.2.2.2 (.str "Paris") (.str "fr") (.num 0) (.num 0)
      (.num 0) (.num 0) (.str "t") (.num 1) "P a r i s" "F R" 0 0 0 0 "t" _ hcity
      hcountry hla0 hlo0 ht0 hw0 hot rfl
